import Mathlib

/-!
Verification development for the QI TELECOM chatbot service.

Shallow embedding of the conversation engine in
`internal/services/chatbot.go` and of the token-bucket rate limiter in
`internal/security/middleware.go`.

Modelling conventions:
* Redis is modelled as a `Session` value: `chat` is the value stored under
  the key `chat:<userID>` (`none` = key absent or expired), `data` the
  decoded record stored under `data:<userID>`.  Key TTLs (`time.Hour`)
  only manifest as eventual absence of a key, which the model expresses by
  `none`.
* Each handler in Go returns `(string, error)` with the error always `nil`;
  handlers here return a `Result` carrying the reply, the updated session,
  and the list of persistence intents (`SheetsClient` calls) issued.
* The generative backend (`AIClient`) is a pair of functions returning
  `Option String`: `none` models a call that fails with an error, matching
  the `err != nil` paths of the Go code.
* Go `string` operations are re-implemented over `String.data` so that all
  definitions reduce in the kernel.  `strings.ToLower` is modelled by
  `goToLower`, exact on ASCII and Latin-1 (which covers every literal the
  code compares against); `strings.TrimSpace` by `goTrimSpace`, which trims
  the ASCII whitespace recognised by `Char.isWhitespace` (Go additionally
  trims rarer Unicode space characters).
* Go `int`/`int64` are modelled as `Int`; the values involved never
  approach the 64-bit overflow boundary.
-/

/-- Lowercase conversion of one rune, as Go `unicode.ToLower` acts on the
ASCII and Latin-1 ranges ('A'-'Z' and 'À'-'Þ' except '×' map 32 code points
up).  Go uses the full Unicode tables; the restriction is exact for every
character occurring in the literals this program compares against. -/
def goCharToLower (c : Char) : Char :=
  if 'A' ≤ c ∧ c ≤ 'Z' then Char.ofNat (c.toNat + 32)
  else if 'À' ≤ c ∧ c ≤ 'Þ' ∧ c ≠ '×' then Char.ofNat (c.toNat + 32)
  else c

/-- Go `strings.ToLower`. -/
def goToLower (s : String) : String := String.mk (s.data.map goCharToLower)

/-- Go `strings.TrimSpace`: drop leading and trailing whitespace. -/
def goTrimSpace (s : String) : String :=
  String.mk (((s.data.dropWhile Char.isWhitespace).reverse.dropWhile Char.isWhitespace).reverse)

/-- Go `strings.ReplaceAll(s, " ", "")` as used in `handlePlansPhone`:
replacing every single-character occurrence by the empty string removes
exactly the occurrences of that character. -/
def goRemoveSpaces (s : String) : String :=
  String.mk (s.data.filter (fun c => c ≠ ' '))

/-- `UserData` (chatbot.go lines 50-62); field defaults are the Go zero
values, so `{}` is the record `UserData{}`. -/
structure UserData where
  Nome : String := ""
  Problema : String := ""
  Descricao : String := ""
  PlanoAtual : String := ""
  PlanoDesejado : String := ""
  Situacao : String := ""
  Telefone : String := ""
  TentativasIA : Int := 0
  TipoAtendimento : String := ""
  AguardandoFeedback : Bool := false
  UltimaAtividade : Int := 0
deriving DecidableEq

/-- The per-user slice of the Redis store: the state tag under
`chat:<userID>` and the record under `data:<userID>`.  `none` models an
absent (never written, deleted, or TTL-evicted) key. -/
structure Session where
  chat : Option String := none
  data : Option UserData := none
deriving DecidableEq

/-- One `SheetsClient` call (the persistence intents of the service). -/
inductive Intent where
  | saveSupport (nome problema descricao status : String)
  | savePlans (nome situacao planoAtual planoDesejado telefone observacoes : String)
  | saveFeedback (nome tipoAtendimento feedback sugestoes : String)
deriving DecidableEq

/-- What one call of a handler produces: the reply text, the updated
session, and the persistence intents issued during the call. -/
structure Result where
  reply : String
  sess : Session
  intents : List Intent
deriving DecidableEq

instance : Inhabited Result := ⟨⟨"", {}, []⟩⟩

/-- `AIClient` (chatbot.go lines 44-47); `none` results model failing
calls. The service field `s.ai` may be nil, hence `Option AIClient`
below. -/
structure AIClient where
  GenerateResponse : String → Option String
  GenerateFreeResponse : String → Option String

/-- `getUserData` (lines 460-470) as seen by the rest of the service: an
absent key yields the zero record.  (`getUserDataFromStore` below models
the same function at the level of raw store bytes.) -/
def getUserData (sess : Session) : UserData :=
  sess.data.getD {}

/-- `getUserData` (lines 460-470) modelled at the store level.
`readResult` is the outcome of `redis.Get(...).Result()` (raw bytes or an
error, the error case covering an absent key), and `unmarshal` abstracts
`json.Unmarshal`, returning the record it populated together with the
error it reported, if any.  The Go code ignores that error. -/
def getUserDataFromStore (unmarshal : String → UserData × Option String)
    (readResult : Except String String) : UserData :=
  match readResult with
  | .error _ => {}
  | .ok data => (unmarshal data).1

/-- `setUserData` (lines 473-477): marshal the record and store it. -/
def setUserData (sess : Session) (userData : UserData) : Session :=
  { sess with data := some userData }

/-- `planList` (lines 24-34). -/
def planList : String := "• *QI FIBRA BASIC*\n  300 Mega + QI TV PLAY + IPV6\n\n• *QI FIBRA PREMIUM*\n  600 Mega + QI TV PLAY + IPV6 + QUALIDADE QI\n\n• *QI FIBRA PREMIUM (MELHOR)*\n  650 Mega + QI TV PLAY + IPV6 + PARAMOUNT + WATCH TV\n\n• *QI FIBRA PREMIUM TOP*\n  700 Mega + QI TV PLAY + IPV6 + PARAMOUNT + WATCH TV"

/-- The main-menu text returned by `showMainMenu` (lines 136-153). -/
def menuText : String := "*QI TELECOM | Menu Principal 🛰️*\n\nBem-vindo ao QIChatBot!\nDigite apenas o *número* da opção desejada:\n\n[1] Suporte Técnico\n    - Problemas com internet, modem ou instalação\n\n[2] Planos e Serviços\n    - Conhecer planos ou solicitar upgrade\n\n[3] Boleto e Financeiro\n    - Segunda via e questões financeiras\n\n[4] Assistente Livre\n    - Chat livre para qualquer dúvida\n\nDigite sua opção (1-4):"

/-- `showMainMenu` (lines 128-154): delete both keys, set the state tag to
`menu`, return the main menu. -/
def showMainMenu (_sess : Session) : Result :=
  { reply := menuText, sess := { chat := some "menu", data := none }, intents := [] }

/-- `showBoletoInfo` (lines 189-209): set state `menu` (record untouched)
and return the static financial-contact text. -/
def showBoletoInfo (sess : Session) : Result :=
  { reply := "💰 *Boleto e Financeiro*\n\nPara *segunda via* ou dúvidas financeiras, utilize os canais oficiais:\n\n*Unidade / Responsável*\nFrancisco Alves: Av. Brigadeiro Faria Lima 703 - Centro | (44) 3643-1736\n\nIporã: Rua Katsuo Nakata 1115 - Centro | (44) 98402-7130 / (44) 3199-9115\n\nPalotina: Aldir Pedron 1319 - Centro | (44) 3649-1486\n\nTerra Roxa: Av. da Saudade 369 - Centro | (44) 3645-3257\n\n⚠️ *Aplicativo de boletos em desenvolvimento. Em breve novidades.*\n\nDigite MENU para voltar ao menu principal.",
    sess := { sess with chat := some "menu" },
    intents := [] }

/-- `handleMenuSelection` (lines 157-186).  Note that options 1, 2 and 4
store a *fresh* record (Go composite literal `UserData{...}`), discarding
any previously accumulated fields including `UltimaAtividade`. -/
def handleMenuSelection (sess : Session) (_userID message : String) : Result :=
  let option := goTrimSpace message
  if option = "1" then
    { reply := "🔧 *Suporte Técnico Selecionado*\n\nPara melhor atendê-lo, preciso do seu *nome completo*:",
      sess := { setUserData sess { TipoAtendimento := "Suporte Técnico", TentativasIA := 0 } with chat := some "support_name" },
      intents := [] }
  else if option = "2" then
    { reply := "📋 *Planos e Serviços*\n\nVocê já é cliente QI TELECOM? Responda *SIM* ou *NÃO*.\n\n(Após responder, mostrarei as opções de planos.)",
      sess := { setUserData sess { TipoAtendimento := "Planos e Serviços" } with chat := some "plans_client_check" },
      intents := [] }
  else if option = "3" then
    showBoletoInfo sess
  else if option = "4" then
    { reply := "🤖 *Assistente Livre Ativado*\n\nAgora você pode fazer qualquer pergunta que quiser! Estou aqui para ajudar.",
      sess := { setUserData sess { TipoAtendimento := "IA Livre" } with chat := some "ai_free" },
      intents := [] }
  else
    showMainMenu sess

/-- `handleSupportName` (lines 212-220). -/
def handleSupportName (sess : Session) (_userID message : String) : Result :=
  let userData := getUserData sess
  let userData := { userData with Nome := goTrimSpace message }
  { reply := "Obrigado, " ++ userData.Nome ++ "! 👋\n\nAgora, descreva detalhadamente o problema técnico que você está enfrentando:",
    sess := { setUserData sess userData with chat := some "support_problem" },
    intents := [] }

/-- The prompt built by `startTechnicalSupport` (lines 240-250).  The Go
raw literal embeds the source indentation; the exact whitespace is
irrelevant to every property proved here (the prompt is only ever passed
to the abstract backend). -/
def supportPrompt (nome problema : String) : String :=
  "Você é um técnico especializado em internet, modem e instalações da QI TELECOM. \n\t\tAnalise o problema relatado pelo cliente e forneça uma solução técnica detalhada e prática.\n\t\tO nome do cliente é: " ++ nome ++ "\n\t\tPROBLEMA: " ++ problema ++ "\n   \n\t\tForneça:\n\t\t1. Diagnóstico provável\n\t\t2. Solução passo a passo \n\t\t3. Se não funcionar, próximos passos\n   \n\t\tSeja técnico mas didático, lembrando que você está se relacionando com pessoas leigas no assunto. Não repita o problema ou o nome do cliente na resposta."

/-- The fixed first-attempt checklist returned by `startTechnicalSupport`
when the backend is nil or fails (line 260). -/
def firstAttemptFallback : String := "🔧 Analise Técnica - Tentativa 1/5\n\nVamos diagnosticar seu problema passo a passo:\n\n1️⃣ Verifique as conexões - Confirme se todos os cabos estão bem conectados\n2️⃣ Reinicie o modem - Desligue por 30 segundos e ligue novamente\n3️⃣ Teste a velocidade - Use speedtest.net para verificar\n\nIsso resolveu seu problema?\n- Digite SIM se resolveu\n- Digite NAO se não resolveu"

/-- `startTechnicalSupport` (lines 235-261): set the attempt counter to 1,
query the backend, fall back to the fixed checklist on nil client or
error. -/
def startTechnicalSupport (ai : Option AIClient) (sess : Session) (problema : String) : Result :=
  let userData := getUserData sess
  let userData := { userData with TentativasIA := 1 }
  let sess := setUserData sess userData
  let prompt := supportPrompt userData.Nome problema
  match ai with
  | some c =>
    match c.GenerateResponse prompt with
    | some response =>
      { reply := "🔧 Analise Técnica - Tentativa 1/5\n\n" ++ response ++ "\n\n---\nIsso resolveu seu problema?\n- Digite SIM se resolveu\n- Digite NAO se não resolveu",
        sess := sess, intents := [] }
    | none => { reply := firstAttemptFallback, sess := sess, intents := [] }
  | none => { reply := firstAttemptFallback, sess := sess, intents := [] }

/-- `handleSupportProblem` (lines 223-232): store the problem (trimmed)
and its raw description, advance to `support_ia`, run attempt 1. -/
def handleSupportProblem (ai : Option AIClient) (sess : Session) (_userID message : String) : Result :=
  let userData := getUserData sess
  let userData := { userData with Problema := goTrimSpace message, Descricao := message }
  let sess := setUserData sess userData
  let sess := { sess with chat := some "support_ia" }
  startTechnicalSupport ai sess message

/-- The prompt built by `continueTechnicalSupport` (lines 265-268). -/
def continuePrompt (tentativa : Int) (problema : String) : String :=
  "Esta é a tentativa " ++ toString tentativa ++ "/5 de resolver este problema técnico. \n\tProblema anterior: " ++ problema ++ "\n\t\n\tForneça uma solução DIFERENTE e mais avançada. Seja mais específico e didatico para uma pessoa leiga. tente ser direto ao ponto, sem muita escrita."

/-- `defaultSolutions` (lines 278-282): the fixed 3-item fallback
ladder. -/
def defaultSolutions : List String :=
  ["🔧 *Verificação de DNS*\n\n1️⃣ Altere o DNS para 177.39.208.2 e 177.39.208.3\n2️⃣ Limpe o cache DNS: `ipconfig /flushdns`\n3️⃣ Teste novamente",
   "🔧 *Verificação de Portas*\n\n1️⃣ Teste diferentes portas Ethernet\n2️⃣ Verifique se o cabo não está danificado\n3️⃣ Teste com outro dispositivo",
   "🔧 *Verificação de Sinal*\n\n1️⃣ Verifique atenuação da linha\n2️⃣ Confirme se não há interferências\n3️⃣ Teste isoladamente sem outros equipamentos"]

/-- The confirmation question appended to a fallback-ladder item by the
`fmt.Sprintf` on line 285. -/
def fallbackSuffix : String := "\n\n*Isso resolveu seu problema?*\n- Digite *SIM* se resolveu\n- Digite *NÃO* se não resolveu"

/-- `continueTechnicalSupport` (lines 264-286).  `solutionIndex` is the Go
expression `(tentativa - 2) % len(defaultSolutions)`; Go `%` truncates
toward zero, i.e. `Int.tmod`.  Go would panic on a negative index; the
model totalises with `List.getD`, and the function is only ever called
with `tentativa` in 2..4 (2..5 for the sub-engine contract). -/
def continueTechnicalSupport (ai : Option AIClient) (tentativa : Int) (problema : String) : String :=
  let prompt := continuePrompt tentativa problema
  let fallback :=
    defaultSolutions.getD (Int.tmod (tentativa - 2) (defaultSolutions.length : Int)).toNat "" ++ fallbackSuffix
  match ai with
  | some c =>
    match c.GenerateResponse prompt with
    | some response =>
      "🔧 *Nova Análise Técnica - Tentativa " ++ toString tentativa ++ "/5*\n\n" ++ response ++ "\n\n---\n*Isso resolveu seu problema?*\n- Digite *SIM* se resolveu\n- Digite *NÃO* se não resolveu"
    | none => fallback
  | none => fallback

/-- The escalation reply of `handleSupportIA` (line 425). -/
def escalationReply : String := "🚨 *Encaminhamento para Técnico Especializado*\n\n📅 Prazo: 24-48 horas\n📞 Entraremos em contato.\n\nAntes de finalizar, poderia avaliar nosso atendimento? (Ex: Excelente, Bom, Regular...)"

/-- `handleSupportIA` (lines 405-432): the `SupportDiagnosis` step. -/
def handleSupportIA (ai : Option AIClient) (sess : Session) (_userID message : String) : Result :=
  let response := goToLower (goTrimSpace message)
  let userData := getUserData sess
  if response = "sim" then
    let intent := Intent.saveSupport userData.Nome userData.Problema userData.Descricao "Resolvido pela IA"
    let userData := { userData with AguardandoFeedback := false }
    { reply := "🎉 *Ótimo! Problema resolvido!*\n\nPoderia nos dar um *feedback/opinião* sobre nosso atendimento? (Ex: Excelente, Bom, Regular...)",
      sess := { setUserData sess userData with chat := some "support_feedback" },
      intents := [intent] }
  else if response = "não" ∨ response = "nao" then
    let userData := { userData with TentativasIA := userData.TentativasIA + 1 }
    if userData.TentativasIA ≥ 5 then
      let intent := Intent.saveSupport userData.Nome userData.Problema userData.Descricao "Encaminhado para Técnico Humano"
      let userData := { userData with AguardandoFeedback := false }
      { reply := escalationReply,
        sess := { setUserData sess userData with chat := some "support_feedback" },
        intents := [intent] }
    else
      { reply := continueTechnicalSupport ai userData.TentativasIA userData.Problema,
        sess := setUserData sess userData,
        intents := [] }
  else
    { reply := "Por favor, responda apenas *SIM* ou *NÃO* para que eu possa ajudá-lo melhor.",
      sess := sess, intents := [] }

/-- The rating-acknowledgement prompt of `handleSupportFeedback`
(line 445). -/
def feedbackThanksReply : String := "💭 *Obrigado pela avaliação!*\n\nPara finalizar, tem alguma *sugestão* ou *comentário* para melhorarmos nosso atendimento?\n\n*(Digite sua sugestão ou \x27NÃO\x27 se não tiver)*"

/-- `handleSupportFeedback` (lines 435-457).  The rating sub-step stores
the rating into the `Problema` field; the comment sub-step reads the
rating back out of that field (`avaliacao := userData.Problema`). -/
def handleSupportFeedback (sess : Session) (_userID message : String) : Result :=
  let userData := getUserData sess
  if !userData.AguardandoFeedback then
    let feedback := goTrimSpace message
    let userData := { userData with Problema := feedback, AguardandoFeedback := true }
    { reply := feedbackThanksReply,
      sess := setUserData sess userData,
      intents := [] }
  else
    let sugestoes := goTrimSpace message
    let sugestoes := if goToLower sugestoes = "não" ∨ goToLower sugestoes = "nao" then "" else sugestoes
    let avaliacao := userData.Problema
    { reply := "🙏 *Feedback registrado com sucesso!* \n\nSua opinião é muito importante para melhorarmos nossos serviços.\n\nDigite *MENU* para voltar ao menu principal.",
      sess := { sess with chat := some "menu" },
      intents := [Intent.saveFeedback userData.Nome userData.TipoAtendimento avaliacao sugestoes] }

/-- `handlePlansClientCheck` (lines 289-310). -/
def handlePlansClientCheck (sess : Session) (_userID message : String) : Result :=
  let response := goToLower (goTrimSpace message)
  let userData := getUserData sess
  if response = "sim" then
    let userData := { userData with Situacao := "Cliente Atual" }
    { reply := "👤 *Cliente Atual Identificado*\n\nQual seu *plano atual*? Digite exatamente uma das opções abaixo:\n\n" ++ planList,
      sess := { setUserData sess userData with chat := some "plans_current" },
      intents := [] }
  else if response = "não" ∨ response = "nao" then
    let userData := { userData with Situacao := "Novo Cliente", PlanoAtual := "Nenhum" }
    { reply := "🆕 *Novo Cliente - Bem-vindo!*\n\nPerfeito! Qual plano desperta seu interesse?\n\n" ++ planList,
      sess := { setUserData sess userData with chat := some "plans_selection" },
      intents := [] }
  else
    { reply := "Por favor, responda *SIM* ou *NÃO*.", sess := sess, intents := [] }

/-- `handlePlansCurrent` (lines 313-321). -/
def handlePlansCurrent (sess : Session) (_userID message : String) : Result :=
  let userData := getUserData sess
  let userData := { userData with PlanoAtual := goTrimSpace message }
  { reply := "📋 *Plano Atual: " ++ userData.PlanoAtual ++ "*\n\nGostaria de fazer *upgrade*? Veja nossas opções superiores:\n\n" ++ planList,
    sess := { setUserData sess userData with chat := some "plans_selection" },
    intents := [] }

/-- `handlePlansSelection` (lines 324-337). -/
def handlePlansSelection (sess : Session) (_userID message : String) : Result :=
  let userData := getUserData sess
  let userData := { userData with PlanoDesejado := goTrimSpace message }
  if goToLower userData.PlanoDesejado = "manter atual" then
    { reply := "✅ *Entendido!*\n\nVocê optou por manter seu plano atual. Se mudar de ideia, estaremos aqui!\n\nDigite *MENU* para voltar ao menu principal.",
      sess := { setUserData sess userData with chat := some "menu" },
      intents := [] }
  else
    { reply := "📝 *Dados para Contato*\n\nPara avançar, preciso do seu *nome completo*:",
      sess := { setUserData sess userData with chat := some "plans_name" },
      intents := [] }

/-- `isAllDigits` (lines 362-369): true iff every rune is an ASCII
digit. -/
def isAllDigits (s : String) : Bool :=
  s.data.all fun r => decide (¬(r < '0' ∨ '9' < r))

/-- `handlePlansName` (lines 340-359).  Go tests `len(userID)`, a byte
count; `String.length` counts characters, which agrees whenever
`isAllDigits` holds, and when it does not the whole conjunction is false
under both counts, so the model is exact. -/
def handlePlansName (sess : Session) (userID message : String) : Result :=
  let userData := getUserData sess
  let userData := { userData with Nome := goTrimSpace message }
  let userData :=
    if userData.Telefone = "" ∧ 10 ≤ userID.length ∧ userID.length ≤ 15 ∧ isAllDigits userID then
      { userData with Telefone := userID }
    else userData
  if userData.Telefone ≠ "" then
    let observacoes := "Interesse em: " ++ userData.PlanoDesejado ++ " | Plano atual: " ++ userData.PlanoAtual
    { reply := "🎉 *Dados Registrados com Sucesso!*\n\n*Nome*: " ++ userData.Nome ++ "\n*Situação*: " ++ userData.Situacao ++ "\n*Plano Interesse*: " ++ userData.PlanoDesejado ++ "\n*Telefone*: " ++ userData.Telefone ++ "\n\n📞 *Próximos Passos*:\nNossa equipe comercial entrará em contato em até 24 horas para finalizar!\n\nDigite *MENU* para voltar ao menu principal.",
      sess := { setUserData sess userData with chat := some "menu" },
      intents := [Intent.savePlans userData.Nome userData.Situacao userData.PlanoAtual userData.PlanoDesejado userData.Telefone observacoes] }
  else
    { reply := "📞 Agora informe um *telefone/WhatsApp* para contato (somente números ou formato (XX) XXXXX-XXXX):",
      sess := { setUserData sess userData with chat := some "plans_phone" },
      intents := [] }

/-- `handlePlansPhone` (lines 372-386). -/
def handlePlansPhone (sess : Session) (_userID message : String) : Result :=
  let userData := getUserData sess
  let telefone := goRemoveSpaces (goTrimSpace message)
  let userData := { userData with Telefone := telefone }
  let observacoes := "Interesse em: " ++ userData.PlanoDesejado ++ " | Plano atual: " ++ userData.PlanoAtual
  { reply := "🎉 *Dados Registrados com Sucesso!*\n\n*Nome*: " ++ userData.Nome ++ "\n*Situação*: " ++ userData.Situacao ++ "\n*Plano Interesse*: " ++ userData.PlanoDesejado ++ "\n*Telefone*: " ++ userData.Telefone ++ "\n\n📞 *Próximos Passos*:\nNossa equipe comercial entrará em contato em até 24 horas para finalizar!\n\nDigite *MENU* para voltar ao menu principal.",
    sess := { setUserData sess userData with chat := some "menu" },
    intents := [Intent.savePlans userData.Nome userData.Situacao userData.PlanoAtual userData.PlanoDesejado userData.Telefone observacoes] }

/-- `handleFreeAI` (lines 389-402). -/
def handleFreeAI (ai : Option AIClient) (sess : Session) (_userID message : String) : Result :=
  if goToLower (goTrimSpace message) = "menu" then
    showMainMenu sess
  else
    let fallback := "🤖 Desculpe, não consegui processar sua pergunta no momento. Tente novamente ou digite *MENU* para voltar ao menu principal."
    match ai with
    | some c =>
      match c.GenerateFreeResponse message with
      | some response =>
        { reply := "🤖 " ++ response ++ "\n\n---\n*Digite *MENU* para voltar ao menu principal*",
          sess := sess, intents := [] }
      | none => { reply := fallback, sess := sess, intents := [] }
    | none => { reply := fallback, sess := sess, intents := [] }

/-- Lines 77-87 of `ProcessMessage`: load the record, discard session and
record when idle for more than 600 seconds, stamp the current time, store
the record back.  `now` is `time.Now().Unix()`. -/
def sessionMaintain (now : Int) (sess : Session) : Session :=
  let userData := getUserData sess
  let (sess, userData) :=
    if userData.UltimaAtividade > 0 ∧ now - userData.UltimaAtividade > 600 then
      ({ chat := none, data := none }, ({} : UserData))
    else (sess, userData)
  let userData := { userData with UltimaAtividade := now }
  setUserData sess userData

/-- Lines 89-125 of `ProcessMessage`: the global `oi`/`menu` interrupt,
then dispatch on the stored state tag.  Go's `switch` on a string is a
sequence of equality tests; the read of `chat:<userID>` yields `""` on
error/absence (`state, _ := ...Result()`).  Go binds `msgLower` and
`state` once; those single-use bindings are inlined here (definitionally
the same function). -/
def dispatchMessage (ai : Option AIClient) (sess : Session) (userID message : String) : Result :=
  if goToLower (goTrimSpace message) = "oi" ∨ goToLower (goTrimSpace message) = "menu" then
    showMainMenu sess
  else if sess.chat.getD "" = "" then showMainMenu sess
  else if sess.chat.getD "" = "menu" then handleMenuSelection sess userID message
  else if sess.chat.getD "" = "support_name" then handleSupportName sess userID message
  else if sess.chat.getD "" = "support_problem" then handleSupportProblem ai sess userID message
  else if sess.chat.getD "" = "support_ia" then handleSupportIA ai sess userID message
  else if sess.chat.getD "" = "support_feedback" then handleSupportFeedback sess userID message
  else if sess.chat.getD "" = "plans_client_check" then handlePlansClientCheck sess userID message
  else if sess.chat.getD "" = "plans_current" then handlePlansCurrent sess userID message
  else if sess.chat.getD "" = "plans_name" then handlePlansName sess userID message
  else if sess.chat.getD "" = "plans_phone" then handlePlansPhone sess userID message
  else if sess.chat.getD "" = "plans_selection" then handlePlansSelection sess userID message
  else if sess.chat.getD "" = "ai_free" then handleFreeAI ai sess userID message
  else showMainMenu sess

/-- `ProcessMessage` (lines 76-125): maintenance phase, then interrupt
check and state dispatch. -/
def ProcessMessage (ai : Option AIClient) (now : Int) (sess : Session) (userID message : String) : Result :=
  dispatchMessage ai (sessionMaintain now sess) userID message

/-- Feed a list of inbound messages one after the other (all at the same
clock reading), collecting each step's `Result`. -/
def runTrace (ai : Option AIClient) (now : Int) (userID : String) : Session → List String → List Result
  | _, [] => []
  | sess, m :: ms =>
    let r := ProcessMessage ai now sess userID m
    r :: runTrace ai now userID r.sess ms

/-- The twelve dialog states named by the specification (§4.2). -/
inductive SpecState where
  | Menu | SupportName | SupportProblem | SupportDiagnosis
  | SupportFeedbackRating | SupportFeedbackComment
  | PlansClientCheck | PlansCurrentPlan | PlansSelection
  | PlansName | PlansPhone | FreeAssistant
deriving DecidableEq

/-- Decode a stored session into the specification's state space: the
eleven stored tags map onto the twelve named states, the two
feedback-collection sub-steps being distinguished by the
`AguardandoFeedback` flag.  `none` means an undefined/unknown tag. -/
def decodeState (sess : Session) : Option SpecState :=
  match sess.chat with
  | none => none
  | some tag =>
    if tag = "menu" then some .Menu
    else if tag = "support_name" then some .SupportName
    else if tag = "support_problem" then some .SupportProblem
    else if tag = "support_ia" then some .SupportDiagnosis
    else if tag = "support_feedback" then
      some (if (getUserData sess).AguardandoFeedback then .SupportFeedbackComment else .SupportFeedbackRating)
    else if tag = "plans_client_check" then some .PlansClientCheck
    else if tag = "plans_current" then some .PlansCurrentPlan
    else if tag = "plans_selection" then some .PlansSelection
    else if tag = "plans_name" then some .PlansName
    else if tag = "plans_phone" then some .PlansPhone
    else if tag = "ai_free" then some .FreeAssistant
    else none

/-- The state tags the dispatcher of `ProcessMessage` knows (lines
99-121). -/
def knownTags : List String :=
  ["menu", "support_name", "support_problem", "support_ia", "support_feedback",
   "plans_client_check", "plans_current", "plans_name", "plans_phone",
   "plans_selection", "ai_free"]

/-- `clientBucket` (middleware.go lines 27-30).  `lastRefill` is a clock
reading in nanoseconds (`time.Time` at nanosecond resolution, monotonic,
so modelled as `Nat`). -/
structure clientBucket where
  tokens : Int
  lastRefill : Nat
deriving DecidableEq

/-- `RateLimiter` (middleware.go lines 20-25); the Go map is modelled as
an association list.  The mutex only serialises concurrent callers and has
no sequential content. -/
structure RateLimiter where
  clients : List (String × clientBucket)
  rpm : Int
  burst : Int
deriving DecidableEq

/-- Write-through of `rl.clients[clientIP] = bucket` on the association
list. -/
def setClient : List (String × clientBucket) → String → clientBucket → List (String × clientBucket)
  | [], k, b => [(k, b)]
  | (k₀, b₀) :: rest, k, b =>
    if k₀ = k then (k, b) :: rest else (k₀, b₀) :: setClient rest k b

/-- `RateLimiter.Allow` (middleware.go lines 178-212).  `now` is the
current clock reading in nanoseconds.  The Go expression
`int(elapsed.Minutes())` truncates the float64 minute count toward zero,
which for the non-negative elapsed times a monotonic clock produces equals
floor division of the nanosecond count by 6e10 (exact below 2^53 ns); the
subsequent `* rl.rpm / 60` is Go left-to-right int arithmetic with
truncating division, i.e. `Int.tdiv`. -/
def RateLimiter.Allow (rl : RateLimiter) (clientIP : String) (now : Nat) : Bool × RateLimiter :=
  match rl.clients.lookup clientIP with
  | none =>
    let bucket : clientBucket := { tokens := rl.burst - 1, lastRefill := now }
    (true, { rl with clients := setClient rl.clients clientIP bucket })
  | some bucket =>
    let elapsed : Nat := now - bucket.lastRefill
    let tokensToAdd : Int := Int.tdiv (((elapsed / 60000000000 : Nat) : Int) * rl.rpm) 60
    let bucket :=
      if tokensToAdd > 0 then
        let t := bucket.tokens + tokensToAdd
        { bucket with tokens := if t > rl.burst then rl.burst else t, lastRefill := now }
      else bucket
    if bucket.tokens > 0 then
      (true, { rl with clients := setClient rl.clients clientIP { bucket with tokens := bucket.tokens - 1 } })
    else
      (false, { rl with clients := setClient rl.clients clientIP bucket })

/-- Run a sequence of `Allow` calls, returning the admission decisions in
order. -/
def runAllow (rl : RateLimiter) : List (String × Nat) → List Bool × RateLimiter
  | [] => ([], rl)
  | (ip, t) :: rest =>
    let step := rl.Allow ip t
    let tail := runAllow step.2 rest
    (step.1 :: tail.1, tail.2)

/-! ### Helper lemmas -/

theorem sessionMaintain_spec (now : Int) (sess : Session) :
    sessionMaintain now sess =
      if (getUserData sess).UltimaAtividade > 0 ∧ now - (getUserData sess).UltimaAtividade > 600 then
        { chat := none, data := some { ({} : UserData) with UltimaAtividade := now } }
      else { sess with data := some { getUserData sess with UltimaAtividade := now } } := by
  by_cases h : (getUserData sess).UltimaAtividade > 0 ∧ now - (getUserData sess).UltimaAtividade > 600 <;>
    simp [sessionMaintain, setUserData, h]

theorem chat_eq_of_getD (sess : Session) (t : String) (h : sess.chat.getD "" = t)
    (ht : ¬t = "") : sess.chat = some t := by
  cases hc : sess.chat with
  | none => rw [hc] at h; simp at h; exact absurd h.symm ht
  | some u => rw [hc] at h; simpa using h

theorem decode_showMainMenu (sess : Session) : (decodeState (showMainMenu sess).sess).isSome := rfl

theorem decode_handleMenuSelection (sess : Session) (uid msg : String) :
    (decodeState (handleMenuSelection sess uid msg).sess).isSome := by
  simp only [handleMenuSelection]
  split_ifs <;> rfl

theorem decode_handleSupportName (sess : Session) (uid msg : String) :
    (decodeState (handleSupportName sess uid msg).sess).isSome := rfl

theorem decode_handleSupportProblem (ai : Option AIClient) (sess : Session) (uid msg : String) :
    (decodeState (handleSupportProblem ai sess uid msg).sess).isSome := by
  simp only [handleSupportProblem, startTechnicalSupport]
  repeat' split
  all_goals rfl

theorem decode_handleSupportIA (ai : Option AIClient) (sess : Session) (uid msg : String)
    (hc : sess.chat = some "support_ia") :
    (decodeState (handleSupportIA ai sess uid msg).sess).isSome := by
  simp only [handleSupportIA]
  split_ifs <;> simp [decodeState, setUserData, hc]

theorem decode_handleSupportFeedback (sess : Session) (uid msg : String)
    (hc : sess.chat = some "support_feedback") :
    (decodeState (handleSupportFeedback sess uid msg).sess).isSome := by
  simp only [handleSupportFeedback]
  split_ifs <;> simp [decodeState, setUserData, hc]

theorem decode_handlePlansClientCheck (sess : Session) (uid msg : String)
    (hc : sess.chat = some "plans_client_check") :
    (decodeState (handlePlansClientCheck sess uid msg).sess).isSome := by
  simp only [handlePlansClientCheck]
  split_ifs <;> simp [decodeState, setUserData, hc]

theorem decode_handlePlansCurrent (sess : Session) (uid msg : String) :
    (decodeState (handlePlansCurrent sess uid msg).sess).isSome := rfl

theorem decode_handlePlansSelection (sess : Session) (uid msg : String) :
    (decodeState (handlePlansSelection sess uid msg).sess).isSome := by
  simp only [handlePlansSelection]
  split_ifs <;> rfl

theorem decode_handlePlansName (sess : Session) (uid msg : String) :
    (decodeState (handlePlansName sess uid msg).sess).isSome := by
  simp only [handlePlansName]
  split_ifs <;> rfl

theorem decode_handlePlansPhone (sess : Session) (uid msg : String) :
    (decodeState (handlePlansPhone sess uid msg).sess).isSome := rfl

theorem decode_handleFreeAI (ai : Option AIClient) (sess : Session) (uid msg : String)
    (hc : sess.chat = some "ai_free") :
    (decodeState (handleFreeAI ai sess uid msg).sess).isSome := by
  simp only [handleFreeAI]
  split_ifs
  · rfl
  · repeat' split
    all_goals simp [decodeState, hc]

theorem decode_dispatchMessage (ai : Option AIClient) (sess : Session) (uid msg : String) :
    (decodeState (dispatchMessage ai sess uid msg).sess).isSome = true := by
  unfold dispatchMessage
  by_cases h1 : (goToLower (goTrimSpace msg) = "oi" ∨ goToLower (goTrimSpace msg) = "menu")
  · rw [if_pos h1]
    exact decode_showMainMenu sess
  · rw [if_neg h1]
    by_cases h2 : sess.chat.getD "" = ""
    · rw [if_pos h2]
      exact decode_showMainMenu sess
    · rw [if_neg h2]
      by_cases h3 : sess.chat.getD "" = "menu"
      · rw [if_pos h3]
        exact decode_handleMenuSelection sess uid msg
      · rw [if_neg h3]
        by_cases h4 : sess.chat.getD "" = "support_name"
        · rw [if_pos h4]
          exact decode_handleSupportName sess uid msg
        · rw [if_neg h4]
          by_cases h5 : sess.chat.getD "" = "support_problem"
          · rw [if_pos h5]
            exact decode_handleSupportProblem ai sess uid msg
          · rw [if_neg h5]
            by_cases h6 : sess.chat.getD "" = "support_ia"
            · rw [if_pos h6]
              exact decode_handleSupportIA ai sess uid msg (chat_eq_of_getD sess _ h6 (by decide))
            · rw [if_neg h6]
              by_cases h7 : sess.chat.getD "" = "support_feedback"
              · rw [if_pos h7]
                exact decode_handleSupportFeedback sess uid msg (chat_eq_of_getD sess _ h7 (by decide))
              · rw [if_neg h7]
                by_cases h8 : sess.chat.getD "" = "plans_client_check"
                · rw [if_pos h8]
                  exact decode_handlePlansClientCheck sess uid msg (chat_eq_of_getD sess _ h8 (by decide))
                · rw [if_neg h8]
                  by_cases h9 : sess.chat.getD "" = "plans_current"
                  · rw [if_pos h9]
                    exact decode_handlePlansCurrent sess uid msg
                  · rw [if_neg h9]
                    by_cases h10 : sess.chat.getD "" = "plans_name"
                    · rw [if_pos h10]
                      exact decode_handlePlansName sess uid msg
                    · rw [if_neg h10]
                      by_cases h11 : sess.chat.getD "" = "plans_phone"
                      · rw [if_pos h11]
                        exact decode_handlePlansPhone sess uid msg
                      · rw [if_neg h11]
                        by_cases h12 : sess.chat.getD "" = "plans_selection"
                        · rw [if_pos h12]
                          exact decode_handlePlansSelection sess uid msg
                        · rw [if_neg h12]
                          by_cases h13 : sess.chat.getD "" = "ai_free"
                          · rw [if_pos h13]
                            exact decode_handleFreeAI ai sess uid msg (chat_eq_of_getD sess _ h13 (by decide))
                          · rw [if_neg h13]
                            exact decode_showMainMenu sess

theorem sessionMaintain_ultima (now : Int) (sess : Session) :
    (getUserData (sessionMaintain now sess)).UltimaAtividade = now := by
  rw [sessionMaintain_spec]
  by_cases h : (getUserData sess).UltimaAtividade > 0 ∧ now - (getUserData sess).UltimaAtividade > 600
  · rw [if_pos h]; rfl
  · rw [if_neg h]; rfl

/-- C5: for every backend, clock reading, stored session (including
corrupt or adversarial ones) and inbound message, the session stored
after `ProcessMessage` always decodes to one of the twelve named dialog
states — the tag is never undefined or unknown. -/
theorem processMessage_state_always_named (ai : Option AIClient) (now : Int) (sess : Session)
    (uid msg : String) :
    (decodeState (ProcessMessage ai now sess uid msg).sess).isSome = true := by
  unfold ProcessMessage
  exact decode_dispatchMessage ai (sessionMaintain now sess) uid msg

/-- C1: evaluation of `RateLimiter.Allow` with burst=5, rpm=60 at the
claim's scenario.  The first five immediate calls for a fresh key are
admitted and the sixth immediate call is rejected, as claimed; but a call
1 second later (and even 59 seconds later) is still rejected, because
`int(elapsed.Minutes()) * rpm / 60` adds zero tokens for any elapsed time
under one whole minute; only the call at 60 seconds is admitted.  This
contradicts the claimed continuous elapsed-time-fraction refill (and the
config documentation `Requests per minute per IP`). -/
theorem rateLimiter_whole_minute_refill :
    (runAllow { clients := [], rpm := 60, burst := 5 }
      [("1.2.3.4", 0), ("1.2.3.4", 0), ("1.2.3.4", 0), ("1.2.3.4", 0), ("1.2.3.4", 0),
       ("1.2.3.4", 0), ("1.2.3.4", 1000000000), ("1.2.3.4", 59000000000),
       ("1.2.3.4", 60000000000)]).1
    = [true, true, true, true, true, false, false, false, true] := by
  rfl

/-- C3: with the generative backend absent or failing on every prompt,
the fallback of `continueTechnicalSupport` for attempts 2, 3, 4, 5 is the
ladder item at index (attempt − 2) mod 3 — items 0, 1, 2, 0 respectively —
for every problem description. -/
theorem fallback_ladder_cycles (ai : Option AIClient) (problema : String)
    (hfail : ai = none ∨ ∃ c, ai = some c ∧ ∀ p, c.GenerateResponse p = none) :
    continueTechnicalSupport ai 2 problema = defaultSolutions.getD 0 "" ++ fallbackSuffix
    ∧ continueTechnicalSupport ai 3 problema = defaultSolutions.getD 1 "" ++ fallbackSuffix
    ∧ continueTechnicalSupport ai 4 problema = defaultSolutions.getD 2 "" ++ fallbackSuffix
    ∧ continueTechnicalSupport ai 5 problema = defaultSolutions.getD 0 "" ++ fallbackSuffix := by
  rcases hfail with rfl | ⟨c, rfl, hg⟩
  · exact ⟨rfl, rfl, rfl, rfl⟩
  · refine ⟨?_, ?_, ?_, ?_⟩ <;> simp [continueTechnicalSupport, hg] <;> rfl

theorem fallback_ladder_cycles_check :
    continueTechnicalSupport none 2 "x" = defaultSolutions.getD 0 "" ++ fallbackSuffix
    ∧ continueTechnicalSupport none 3 "x" = defaultSolutions.getD 1 "" ++ fallbackSuffix
    ∧ continueTechnicalSupport none 4 "x" = defaultSolutions.getD 2 "" ++ fallbackSuffix
    ∧ continueTechnicalSupport none 5 "x" = defaultSolutions.getD 0 "" ++ fallbackSuffix :=
  fallback_ladder_cycles none "x" (Or.inl rfl)

/-- C10: reading a session record is total and never surfaces an error:
a failed store read yields the zero record, a successful read yields
whatever record the decoder populated with its error discarded, and a
read whose decode fails leaving the zero record is indistinguishable from
a missing record. -/
theorem getUserData_absorbs_errors (unmarshal : String → UserData × Option String) :
    (∀ e, getUserDataFromStore unmarshal (Except.error e) = ({} : UserData))
    ∧ (∀ s, getUserDataFromStore unmarshal (Except.ok s) = (unmarshal s).1)
    ∧ (∀ s e, unmarshal s = ({}, some e) →
        getUserDataFromStore unmarshal (Except.ok s) =
          getUserDataFromStore unmarshal (Except.error "redis: nil")) := by
  refine ⟨fun e => rfl, fun s => rfl, fun s e h => ?_⟩
  simp [getUserDataFromStore, h]

theorem getUserData_absorbs_errors_check :
    getUserDataFromStore (fun _ => (({} : UserData), some "invalid character")) (Except.ok "not json")
      = getUserDataFromStore (fun _ => (({} : UserData), some "invalid character")) (Except.error "redis: nil") :=
  (getUserData_absorbs_errors (fun _ => (({} : UserData), some "invalid character"))).2.2
    "not json" "invalid character" rfl

/-- C9: in the rating sub-step of `handleSupportFeedback` (flag
`AguardandoFeedback` false) the trimmed rating text is stored into the
`Problema` field, overwriting the captured problem description, and the
feedback-persistence intent of the following comment sub-step reads the
rating back out of that same field. -/
theorem feedbackRating_overwrites_problema (sess : Session) (uid m1 m2 : String)
    (hflag : (getUserData sess).AguardandoFeedback = false) :
    ((getUserData (handleSupportFeedback sess uid m1).sess).Problema = goTrimSpace m1)
    ∧ ((getUserData (handleSupportFeedback sess uid m1).sess).AguardandoFeedback = true)
    ∧ ((handleSupportFeedback sess uid m1).intents = [])
    ∧ ((handleSupportFeedback (handleSupportFeedback sess uid m1).sess uid m2).intents =
        [Intent.saveFeedback (getUserData sess).Nome (getUserData sess).TipoAtendimento (goTrimSpace m1)
          (if goToLower (goTrimSpace m2) = "não" ∨ goToLower (goTrimSpace m2) = "nao" then ""
           else goTrimSpace m2)]) := by
  have h1 : handleSupportFeedback sess uid m1 =
      { reply := feedbackThanksReply,
        sess := setUserData sess { getUserData sess with Problema := goTrimSpace m1, AguardandoFeedback := true },
        intents := [] } := by
    simp only [handleSupportFeedback, hflag, Bool.not_false, if_true]
  rw [h1]
  refine ⟨rfl, rfl, rfl, ?_⟩
  simp only [handleSupportFeedback]
  rfl

theorem feedbackRating_overwrites_problema_check :
    (getUserData (handleSupportFeedback
        ⟨some "support_feedback", some { Nome := "Ana", Problema := "sem internet", TipoAtendimento := "Suporte Técnico" }⟩
        "u" "Excelente").sess).Problema = goTrimSpace "Excelente" :=
  (feedbackRating_overwrites_problema
    ⟨some "support_feedback", some { Nome := "Ana", Problema := "sem internet", TipoAtendimento := "Suporte Técnico" }⟩
    "u" "Excelente" "nao" rfl).1

/-- C6: the maintenance phase of `ProcessMessage` discards the stored
session exactly when the recorded last-activity timestamp is positive and
more than 600 seconds old, continuing from the all-default record;
otherwise it keeps the record; in both cases the stored last-activity
timestamp becomes the current time — hence, read at consecutive
maintenance points of a clock that never runs backwards, it is
non-decreasing — and every `ProcessMessage` call processes the maintained
session. -/
theorem inactivity_reset_policy (now : Int) (sess : Session) :
    (sessionMaintain now sess =
      if (getUserData sess).UltimaAtividade > 0 ∧ now - (getUserData sess).UltimaAtividade > 600 then
        { chat := none, data := some { ({} : UserData) with UltimaAtividade := now } }
      else { sess with data := some { getUserData sess with UltimaAtividade := now } })
    ∧ ((getUserData (sessionMaintain now sess)).UltimaAtividade = now)
    ∧ (∀ ai uid msg, ProcessMessage ai now sess uid msg = dispatchMessage ai (sessionMaintain now sess) uid msg)
    ∧ (∀ now2 sess2, now ≤ now2 →
        (getUserData (sessionMaintain now sess)).UltimaAtividade ≤
          (getUserData (sessionMaintain now2 sess2)).UltimaAtividade) := by
  refine ⟨sessionMaintain_spec now sess, sessionMaintain_ultima now sess, fun ai uid msg => rfl,
    fun now2 sess2 hle => ?_⟩
  rw [sessionMaintain_ultima, sessionMaintain_ultima]
  exact hle

theorem inactivity_reset_policy_check :
    (getUserData (sessionMaintain 650 ⟨some "menu", some { UltimaAtividade := 10 }⟩)).UltimaAtividade ≤
      (getUserData (sessionMaintain 700 ⟨none, none⟩)).UltimaAtividade :=
  (inactivity_reset_policy 650 ⟨some "menu", some { UltimaAtividade := 10 }⟩).2.2.2 700 ⟨none, none⟩ (by decide)

/-- C7: `handlePlansName` stores the trimmed message as the name; when no
phone is recorded yet and the session key is a 10-to-15 character string
of digits, the key is reused as the phone; whenever a phone is then
known, a plans-persistence intent is emitted immediately and the state
advances to `menu`, and otherwise the state advances to `plans_phone`
with no intent. -/
theorem plansName_phone_reuse (sess : Session) (userID message : String) :
    ((getUserData (handlePlansName sess userID message).sess).Nome = goTrimSpace message)
    ∧ ((getUserData (handlePlansName sess userID message).sess).Telefone =
        if (getUserData sess).Telefone = "" ∧ 10 ≤ userID.length ∧ userID.length ≤ 15 ∧ isAllDigits userID
        then userID else (getUserData sess).Telefone)
    ∧ (if (getUserData (handlePlansName sess userID message).sess).Telefone ≠ "" then
        (handlePlansName sess userID message).sess.chat = some "menu"
        ∧ (handlePlansName sess userID message).intents =
            [Intent.savePlans (goTrimSpace message) (getUserData sess).Situacao (getUserData sess).PlanoAtual
              (getUserData sess).PlanoDesejado (getUserData (handlePlansName sess userID message).sess).Telefone
              ("Interesse em: " ++ (getUserData sess).PlanoDesejado ++ " | Plano atual: " ++ (getUserData sess).PlanoAtual)]
       else
        (handlePlansName sess userID message).sess.chat = some "plans_phone"
        ∧ (handlePlansName sess userID message).intents = []) := by
  by_cases hr : (getUserData sess).Telefone = "" ∧ 10 ≤ userID.length ∧ userID.length ≤ 15 ∧ isAllDigits userID
  · have hne : ¬userID = "" := by
      intro h
      rw [h] at hr
      exact absurd hr.2.1 (by decide)
    simp only [getUserData] at hr
    simp [handlePlansName, getUserData, setUserData, hr, hne]
  · by_cases ht : (getUserData sess).Telefone = ""
    · have hrest : ¬(10 ≤ userID.length ∧ userID.length ≤ 15 ∧ isAllDigits userID) :=
        fun hc => hr ⟨ht, hc⟩
      simp only [getUserData] at ht
      simp [handlePlansName, getUserData, setUserData, hrest, ht]
    · simp only [getUserData] at ht
      simp [handlePlansName, getUserData, setUserData, ht]

theorem sessionMaintain_chat (now : Int) (sess : Session) :
    (sessionMaintain now sess).chat = sess.chat ∨ (sessionMaintain now sess).chat = none := by
  rw [sessionMaintain_spec]
  by_cases h : (getUserData sess).UltimaAtividade > 0 ∧ now - (getUserData sess).UltimaAtividade > 600
  · rw [if_pos h]; exact Or.inr rfl
  · rw [if_neg h]; exact Or.inl rfl

/-- C4: from every state and every stored record, a message whose trimmed
lower-cased text is `oi` or `menu` short-circuits to the main menu before
state dispatch: the reply is exactly the main-menu text, the stored
record is discarded (reads back as the all-default record, attempt
counter 0), the state tag becomes `menu`, and no intent is emitted. -/
theorem global_interrupt_resets (ai : Option AIClient) (now : Int) (sess : Session) (uid msg : String)
    (h : goToLower (goTrimSpace msg) = "oi" ∨ goToLower (goTrimSpace msg) = "menu") :
    ProcessMessage ai now sess uid msg =
      { reply := menuText, sess := { chat := some "menu", data := none }, intents := [] }
    ∧ getUserData (ProcessMessage ai now sess uid msg).sess = ({} : UserData) := by
  have hd : ProcessMessage ai now sess uid msg = showMainMenu (sessionMaintain now sess) := by
    unfold ProcessMessage dispatchMessage
    rw [if_pos h]
  rw [hd]
  exact ⟨rfl, rfl⟩

theorem global_interrupt_resets_check :
    ProcessMessage none 5 ⟨some "support_ia", some { Nome := "Ana", TentativasIA := 3, UltimaAtividade := 4 }⟩
        "u" " OI " =
      { reply := menuText, sess := { chat := some "menu", data := none }, intents := [] } :=
  (global_interrupt_resets none 5
    ⟨some "support_ia", some { Nome := "Ana", TentativasIA := 3, UltimaAtividade := 4 }⟩
    "u" " OI " (Or.inl rfl)).1

/-- C8: when the stored state tag is none of the dispatcher's known tags,
processing any message propagates no fault: the result (reply, session
and intents alike) is exactly that of `showMainMenu`, i.e. a reset to the
menu state with the record discarded. -/
theorem unknown_state_tag_resets (ai : Option AIClient) (now : Int) (sess : Session)
    (uid msg t : String) (hc : sess.chat = some t) (ht : t ∉ knownTags) :
    ProcessMessage ai now sess uid msg = showMainMenu sess := by
  have n01 : ¬t = "menu" := fun h => ht (by rw [h]; decide)
  have n02 : ¬t = "support_name" := fun h => ht (by rw [h]; decide)
  have n03 : ¬t = "support_problem" := fun h => ht (by rw [h]; decide)
  have n04 : ¬t = "support_ia" := fun h => ht (by rw [h]; decide)
  have n05 : ¬t = "support_feedback" := fun h => ht (by rw [h]; decide)
  have n06 : ¬t = "plans_client_check" := fun h => ht (by rw [h]; decide)
  have n07 : ¬t = "plans_current" := fun h => ht (by rw [h]; decide)
  have n08 : ¬t = "plans_name" := fun h => ht (by rw [h]; decide)
  have n09 : ¬t = "plans_phone" := fun h => ht (by rw [h]; decide)
  have n10 : ¬t = "plans_selection" := fun h => ht (by rw [h]; decide)
  have n11 : ¬t = "ai_free" := fun h => ht (by rw [h]; decide)
  unfold ProcessMessage dispatchMessage
  by_cases h1 : goToLower (goTrimSpace msg) = "oi" ∨ goToLower (goTrimSpace msg) = "menu"
  · rw [if_pos h1]
    rfl
  · rw [if_neg h1]
    rcases sessionMaintain_chat now sess with hm | hm
    · have hg : (sessionMaintain now sess).chat.getD "" = t := by rw [hm, hc]; rfl
      rw [hg]
      by_cases hemp : t = ""
      · rw [if_pos hemp]
        rfl
      · rw [if_neg hemp, if_neg n01, if_neg n02, if_neg n03, if_neg n04, if_neg n05,
          if_neg n06, if_neg n07, if_neg n08, if_neg n09, if_neg n10, if_neg n11]
        rfl
    · have hg : (sessionMaintain now sess).chat.getD "" = "" := by rw [hm]; rfl
      rw [hg]
      rfl

theorem unknown_state_tag_resets_check :
    ProcessMessage none 5 ⟨some "bogus", some { UltimaAtividade := 4 }⟩ "u" "1" =
      showMainMenu ⟨some "bogus", some { UltimaAtividade := 4 }⟩ :=
  unknown_state_tag_resets none 5 ⟨some "bogus", some { UltimaAtividade := 4 }⟩ "u" "1" "bogus"
    rfl (by decide)

theorem handleSupportIA_nao (ai : Option AIClient) (sess : Session) (uid msg : String)
    (hmsg : goToLower (goTrimSpace msg) = "não" ∨ goToLower (goTrimSpace msg) = "nao") :
    handleSupportIA ai sess uid msg =
      if (getUserData sess).TentativasIA + 1 ≥ 5 then
        { reply := escalationReply,
          sess := { setUserData sess { getUserData sess with
                      TentativasIA := (getUserData sess).TentativasIA + 1,
                      AguardandoFeedback := false } with chat := some "support_feedback" },
          intents := [Intent.saveSupport (getUserData sess).Nome (getUserData sess).Problema
            (getUserData sess).Descricao "Encaminhado para Técnico Humano"] }
      else
        { reply := continueTechnicalSupport ai ((getUserData sess).TentativasIA + 1) (getUserData sess).Problema,
          sess := setUserData sess { getUserData sess with TentativasIA := (getUserData sess).TentativasIA + 1 },
          intents := [] } := by
  rcases hmsg with hm | hm <;> simp [handleSupportIA, hm]

theorem handleSupportProblem_attempt_one (ai : Option AIClient) (sess : Session) (uid msg : String) :
    (getUserData (handleSupportProblem ai sess uid msg).sess).TentativasIA = 1 := by
  simp only [handleSupportProblem, startTechnicalSupport]
  repeat' split
  all_goals rfl

/-- C2 (amended): from `SupportDiagnosis`, each `não` answer increments
the attempt counter by exactly 1; escalation occurs exactly when the
counter reaches 5, i.e. since the counter is initialised to 1 on entry
via `SupportProblem`, on the 4th consecutive `não`: that message is
answered with the escalation reply and a persistence intent carrying the
escalated-to-human status, and the state advances to feedback collection,
so a 5th `não` is no longer interpreted as a diagnosis answer; below the
cap the state stays `support_ia` and no intent is emitted. -/
theorem supportDiagnosis_escalates (ai : Option AIClient) (now : Int) (sess : Session)
    (uid msg : String)
    (hchat : sess.chat = some "support_ia")
    (hmsg : goToLower (goTrimSpace msg) = "não" ∨ goToLower (goTrimSpace msg) = "nao")
    (hfresh : ¬((getUserData sess).UltimaAtividade > 0 ∧ now - (getUserData sess).UltimaAtividade > 600)) :
    ((getUserData (ProcessMessage ai now sess uid msg).sess).TentativasIA = (getUserData sess).TentativasIA + 1)
    ∧ ((getUserData sess).TentativasIA + 1 ≥ 5 →
        (ProcessMessage ai now sess uid msg).reply = escalationReply
        ∧ (ProcessMessage ai now sess uid msg).intents =
            [Intent.saveSupport (getUserData sess).Nome (getUserData sess).Problema
              (getUserData sess).Descricao "Encaminhado para Técnico Humano"]
        ∧ (ProcessMessage ai now sess uid msg).sess.chat = some "support_feedback")
    ∧ ((getUserData sess).TentativasIA + 1 < 5 →
        (ProcessMessage ai now sess uid msg).sess.chat = some "support_ia"
        ∧ (ProcessMessage ai now sess uid msg).intents = [])
    ∧ (∀ sess2 uid2 msg2, (getUserData (handleSupportProblem ai sess2 uid2 msg2).sess).TentativasIA = 1) := by
  have hs : sessionMaintain now sess =
      { sess with data := some { getUserData sess with UltimaAtividade := now } } := by
    rw [sessionMaintain_spec, if_neg hfresh]
  have hstep : ProcessMessage ai now sess uid msg = handleSupportIA ai (sessionMaintain now sess) uid msg := by
    unfold ProcessMessage dispatchMessage
    have hor : ¬(goToLower (goTrimSpace msg) = "oi" ∨ goToLower (goTrimSpace msg) = "menu") := by
      rcases hmsg with hm | hm <;> rw [hm] <;> decide
    rw [if_neg hor]
    have hg : (sessionMaintain now sess).chat.getD "" = "support_ia" := by
      rw [hs]
      change sess.chat.getD "" = "support_ia"
      rw [hchat]
      rfl
    rw [hg]
    simp
  have hgd : getUserData (sessionMaintain now sess) = { getUserData sess with UltimaAtividade := now } := by
    rw [hs]
    rfl
  rw [hstep, handleSupportIA_nao ai (sessionMaintain now sess) uid msg hmsg, hgd]
  refine ⟨?_, fun h5 => ?_, fun h5 => ?_, fun sess2 uid2 msg2 => handleSupportProblem_attempt_one ai sess2 uid2 msg2⟩
  · by_cases h5 : (getUserData sess).TentativasIA + 1 ≥ 5
    · rw [if_pos (show ({ getUserData sess with UltimaAtividade := now } : UserData).TentativasIA + 1 ≥ 5 from h5)]
      rfl
    · rw [if_neg (show ¬(({ getUserData sess with UltimaAtividade := now } : UserData).TentativasIA + 1 ≥ 5) from h5)]
      rfl
  · rw [if_pos (show ({ getUserData sess with UltimaAtividade := now } : UserData).TentativasIA + 1 ≥ 5 from h5)]
    exact ⟨rfl, rfl, rfl⟩
  · rw [if_neg (show ¬(({ getUserData sess with UltimaAtividade := now } : UserData).TentativasIA + 1 ≥ 5) from
      (by omega : ¬((getUserData sess).TentativasIA + 1 ≥ 5)))]
    refine ⟨?_, rfl⟩
    rw [hs]
    exact hchat

/-- C2 (counterexample): in the concrete run entering `SupportDiagnosis`
via `SupportProblem` (counter initialised to 1) with the backend absent,
the escalation reply and its persistence intent already occur on the 4th
consecutive `não` (trace index 7), and the 5th `não` (index 8) is
answered by the feedback-collection prompt — which differs from the
escalation reply — with no persistence intent.  So 5 consecutive `não`
answers do not terminate with the escalation reply, refuting the claim as
stated. -/
theorem fiveNaos_counterexample :
    (((runTrace none 1000 "user1" {}
        ["oi", "1", "Maria", "sem internet", "não", "não", "não", "não", "não"]).getD 7 default).reply
      = escalationReply)
    ∧ (((runTrace none 1000 "user1" {}
        ["oi", "1", "Maria", "sem internet", "não", "não", "não", "não", "não"]).getD 7 default).intents
      = [Intent.saveSupport "Maria" "sem internet" "sem internet" "Encaminhado para Técnico Humano"])
    ∧ (((runTrace none 1000 "user1" {}
        ["oi", "1", "Maria", "sem internet", "não", "não", "não", "não", "não"]).getD 8 default).reply
      = feedbackThanksReply)
    ∧ ¬(feedbackThanksReply = escalationReply)
    ∧ (((runTrace none 1000 "user1" {}
        ["oi", "1", "Maria", "sem internet", "não", "não", "não", "não", "não"]).getD 8 default).intents
      = []) := by
  refine ⟨rfl, rfl, rfl, by decide, rfl⟩

theorem supportDiagnosis_escalates_check :
    (getUserData (ProcessMessage none 100 ⟨some "support_ia", some { Nome := "Ana", Problema := "p", Descricao := "p", TentativasIA := 4, UltimaAtividade := 100 }⟩ "u" "não").sess).TentativasIA
      = (getUserData (⟨some "support_ia", some { Nome := "Ana", Problema := "p", Descricao := "p", TentativasIA := 4, UltimaAtividade := 100 }⟩ : Session)).TentativasIA + 1 :=
  (supportDiagnosis_escalates none 100 ⟨some "support_ia", some { Nome := "Ana", Problema := "p", Descricao := "p", TentativasIA := 4, UltimaAtividade := 100 }⟩ "u" "não"
    rfl (Or.inl rfl) (by decide)).1
